import Mathlib

/-!
Verification development for the iptv_superA repository.

Shallow embedding of the Catchup Capability Detection and Channel Merge Engine:
`src/core/merger.py` (ChannelMerger), `src/detector.py` (StreamDetector),
`src/generator.py` (IPTVGenerator), `src/generators/m3u_generator.py` (M3UGenerator).

Python strings are modelled as Lean `String`s and all string operations used by the
source (strip, split on a character, startswith, endswith, lower, substring
containment) are implemented over the underlying character list so that every
definition evaluates inside the kernel.  Python's insertion-ordered dicts are
modelled as association lists where updating an existing key keeps its position
and a new key is appended at the end.  A raised-and-propagated Python exception is
modelled with `Except PyErr`; a swallowed exception (bare `except`) becomes the
corresponding fallback value.
-/

/-- Python exception classes that the embedded code can raise. -/
inductive PyErr where
  | attributeError
  | typeError
  | valueError
  | nameError
deriving DecidableEq, Repr

/-- Prefix test over characters: models Python `s.startswith(p)`. -/
def pyStarts (s p : String) : Bool :=
  p.data.isPrefixOf s.data

/-- Models Python `s.endswith(p)`. -/
def pyEnds (s p : String) : Bool :=
  p.data.isSuffixOf s.data

/-- Infix test on character lists (`sub` occurs inside `l`). -/
def chHasSub : List Char → List Char → Bool
  | sub, [] => sub.isEmpty
  | sub, l@(_ :: t) => sub.isPrefixOf l || chHasSub sub t

/-- Models Python `sub in s` for strings. -/
def pyIn (sub s : String) : Bool :=
  chHasSub sub.data s.data

/-- Models Python `s.lower()` (ASCII content in this repository). -/
def pyLower (s : String) : String :=
  String.mk (s.data.map Char.toLower)

/-- Models Python `s.strip()`: drop whitespace from both ends. -/
def pyStrip (s : String) : String :=
  String.mk (((s.data.dropWhile Char.isWhitespace).reverse.dropWhile Char.isWhitespace).reverse)

/-- Split a character list at every occurrence of the separator character. -/
def chSplit (sep : Char) : List Char → List Char → List (List Char)
  | [], acc => [acc.reverse]
  | c :: rest, acc =>
    if c = sep then acc.reverse :: chSplit sep rest [] else chSplit sep rest (c :: acc)

/-- Models Python `s.split(sep)` for a one-character separator. -/
def pySplitChar (s : String) (sep : Char) : List String :=
  (chSplit sep s.data []).map String.mk

/-- Find the first occurrence of a character, returning the pieces before and after it. -/
def breakOnChar (sep : Char) : List Char → Option (List Char × List Char)
  | [] => none
  | c :: rest =>
    if c = sep then some ([], rest)
    else match breakOnChar sep rest with
      | none => none
      | some (a, b) => some (c :: a, b)

/-- Models Python `s.split(sep, 1)` for a one-character separator. -/
def pySplit1 (s : String) (sep : Char) : List String :=
  match breakOnChar sep s.data with
  | none => [s]
  | some (a, b) => [String.mk a, String.mk b]

/-- Models Python `int(s)` restricted to an optional minus sign followed by digits;
`none` models the `ValueError` raised on any other shape. -/
def pyInt (s : String) : Option Int :=
  let digits : List Char → Option Nat := fun ds =>
    if ds ≠ [] ∧ ds.all Char.isDigit then
      some (ds.foldl (fun acc d => 10 * acc + (d.toNat - 48)) 0)
    else none
  match s.data with
  | '-' :: ds => (digits ds).map (fun n => -(n : Int))
  | ds => (digits ds).map (fun n => (n : Int))

/-- Join strings with a separator (Python `sep.join`). -/
def joinSep (sep : String) : List String → String
  | [] => ""
  | [x] => x
  | x :: xs => x ++ sep ++ joinSep sep xs

/-! ## Channel records

One record shape covers both parsing paths: `ChannelMerger` populates
`name/group/tvg_id/logo/duration/url/source` (no priority key — the merger never
reads one, modelled as the default `0`), while `IPTVGenerator` populates
`name/group/tvg_id/logo/url/priority`. -/

structure Chan where
  name : String
  group : String
  tvg_id : String
  logo : String
  duration : Int
  url : String
  source : String
  priority : Int
deriving DecidableEq, Repr

/-- Model of `ChannelMerger._generate_channel_id`: it builds the key string
`f"{channel.get('name','')}|{channel.get('group','')}"` and digests it with
`hashlib.md5(...).hexdigest()`.  The md5 step is a pure function of the key, so
fingerprint equality follows from key equality; the model keeps the key itself. -/
def merger_channel_id (c : Chan) : String :=
  c.name ++ "|" ++ c.group

/-- Model of `IPTVGenerator._channel_key`: it builds `f"{group}|{name}|{tvg_id}"` and md5-digests
it; as above the model keeps the key string. -/
def generator_channel_key (c : Chan) : String :=
  c.group ++ "|" ++ c.name ++ "|" ++ c.tvg_id

/-! ## Deduplication

Both deduplication loops share one shape: fold over the records keeping an
insertion-ordered dict from fingerprint to current best, replacing the incumbent
exactly when the `upd` test on (incumbent, newcomer) holds.
`ChannelMerger.merge` tests `len(channel['url']) > len(unique[cid]['url'])`;
`IPTVGenerator.process_sources` tests `existing['priority'] < chan['priority']`. -/

/-- Replace the value stored at an existing key, keeping positions (Python dict
assignment to a present key). -/
def dictReplace (acc : List (String × Chan)) (k : String) (c : Chan) : List (String × Chan) :=
  acc.map (fun p => if p.1 = k then (k, c) else p)

/-- One step of the deduplication fold. -/
def dedup_step (key : Chan → String) (upd : Chan → Chan → Bool)
    (acc : List (String × Chan)) (c : Chan) : List (String × Chan) :=
  let cid := key c
  match acc.lookup cid with
  | none => acc ++ [(cid, c)]
  | some old => if upd old c then dictReplace acc cid c else acc

/-- The deduplication dict after processing all records in order. -/
def dedup (key : Chan → String) (upd : Chan → Chan → Bool) (cs : List Chan) :
    List (String × Chan) :=
  cs.foldl (dedup_step key upd) []

/-- Model of `ChannelMerger.merge` lines 76–87: keyed by `_generate_channel_id`, the
incumbent is replaced iff the newcomer's url is strictly longer. -/
def merger_dedup (cs : List Chan) : List (String × Chan) :=
  dedup merger_channel_id (fun old new => old.url.length < new.url.length) cs

/-- Model of `IPTVGenerator.process_sources` lines 157–166: keyed by `_channel_key`, the
incumbent is replaced iff the newcomer's priority is strictly higher. -/
def generator_dedup (cs : List Chan) : List (String × Chan) :=
  dedup generator_channel_key (fun old new => old.priority < new.priority) cs

/-! ## Filters (`ChannelMerger._apply_filters`) -/

structure FilterCfg where
  min_duration : Int
  allowed_extensions : List String
deriving DecidableEq, Repr

/-- The body of the loop in `_apply_filters`: a channel is kept unless one of the
two `continue` conditions fires. -/
def keep_channel (f : FilterCfg) (c : Chan) : Bool :=
  if f.min_duration > 0 ∧ 0 < c.duration ∧ c.duration < f.min_duration then false
  else if ¬ (f.allowed_extensions.any fun ext => pyEnds (pyLower c.url) ext) then false
  else true

/-- Model of `ChannelMerger._apply_filters`. -/
def apply_filters (f : FilterCfg) (cs : List Chan) : List Chan :=
  cs.filter (keep_channel f)

/-! ## Catchup detection (`src/detector.py`)

The network is abstracted as an oracle `Net`: each HEAD/GET the detector issues is
a separate request, so each carries its own possible response (`none` models a
raised network exception, swallowed by the source's bare `except`). -/

structure HttpResp where
  status : Nat
  contentType : String
deriving DecidableEq, Repr

structure MetaResp where
  latencyMs : Nat
  contentType : String
  sample : List Nat
deriving DecidableEq, Repr

structure Net where
  connResp : Option HttpResp
  dayResp : Nat → Option HttpResp
  tmplResp : String → Option HttpResp
  metaResp : Option MetaResp

/-- The names bound at module level in `src/detector.py`
(`import` lines 1–7 plus the module's own definitions). `urlunparse` is not
among them, although `_apply_catchup_params` and `_apply_template` call it. -/
def detector_imported_names : List String :=
  ["requests", "datetime", "timedelta", "urlparse", "urlencode", "parse_qs",
   "re", "time", "Dict", "Optional", "Tuple", "StreamDetector"]

/-- Evaluating a bare name: `NameError` when the name is unbound. -/
def pyLookupName (n : String) : Except PyErr Unit :=
  if detector_imported_names.contains n then Except.ok () else Except.error PyErr.nameError

/-- Association-list update used to model `query[k] = [v]` on a `parse_qs` dict:
replace in place when the key exists, else append. -/
def pairsSet (ps : List (String × String)) (k v : String) : List (String × String) :=
  if ps.any (fun p => p.1 = k) then ps.map (fun p => if p.1 = k then (k, v) else p)
  else ps ++ [(k, v)]

/-- The query-string part of a URL (everything after the first `?`, empty if none). -/
def queryOf (url : String) : String :=
  match breakOnChar '?' url.data with
  | none => ""
  | some (_, q) => String.mk q

/-- Decode a query string into key/value pairs (split on `&`, each at the first `=`). -/
def queryPairs (url : String) : List (String × String) :=
  (pySplitChar (queryOf url) '&').filterMap fun p =>
    if p = "" then none
    else match breakOnChar '=' p.data with
      | none => some (p, "")
      | some (k, v) => some (String.mk k, String.mk v)

/-- Re-encode query pairs. -/
def encodePairs (ps : List (String × String)) : String :=
  joinSep "&" (ps.map fun p => p.1 ++ "=" ++ p.2)

/-- The URL rebuild the detector's try-blocks attempt
(`urlunparse(parsed._replace(query=urlencode(query, doseq=True)))` after
`query["catchup"] = [param]`).  This code is unreachable in the source because
`urlunparse` is unbound there; the model keeps a plain structural rebuild. -/
def rebuildWithCatchup (url param : String) : String :=
  match breakOnChar '?' url.data with
  | none => url ++ "?" ++ encodePairs (pairsSet [] "catchup" param)
  | some (base, q) =>
      String.mk base ++ "?" ++ encodePairs (pairsSet (queryPairs (String.mk ('?' :: q))) "catchup" param)

/-- The tail of one try-block in `_apply_catchup_params`/`_apply_template`: after
the parameter string is built, the code evaluates the bare name `urlunparse`; the
name is absent from the module's imports, so the body raises `NameError` (`none`)
instead of returning a rebuilt URL. -/
def apply_catchup_iteration (url param : String) : Option String :=
  match pyLookupName "urlunparse" with
  | Except.error _ => none
  | Except.ok _ => some (rebuildWithCatchup url param)

/-- The template/type pairs of `_apply_catchup_params` (source lines 90–95, in
source order).  The formatted parameter value is built and then discarded when the
iteration raises, so the model records only the template text. -/
def apply_params_templates : List String :=
  ["playseek={utc}-{utcend}", "timeshift={sec}", "dvr={days}", "utc={start}&end={end}"]

/-- Model of `StreamDetector._apply_catchup_params`: each loop iteration's try-block raises
(`urlunparse` unbound) and the bare `except: continue` moves on; after the loop the
original URL is returned. -/
def apply_catchup_params (url : String) (days : Nat) : String :=
  match apply_params_templates.findSome? (fun _t => apply_catchup_iteration url _t) with
  | some u => u
  | none => url

/-- Model of `StreamDetector._apply_template`: one try-block built around the same rebuild;
the bare `except: return url` turns the `NameError` into the original URL. -/
def apply_template (url template : String) : String :=
  match apply_catchup_iteration url template with
  | some u => u
  | none => url

/-- Model of `StreamDetector._test_connection`: HEAD the URL; `status_code == 200`, any
exception gives `False`. -/
def test_connection (net : Net) : Bool :=
  match net.connResp with
  | some r => r.status == 200
  | none => false

/-- Content-type acceptance of `_test_catchup_day`:
`startswith(("video/", "application/vnd.apple.mpegurl"))`. -/
def ctOk (ct : String) : Bool :=
  pyStarts ct "video/" || pyStarts ct "application/vnd.apple.mpegurl"

/-- Model of `StreamDetector._test_catchup_day` for the probe of one look-back window:
HEAD succeeds with status 200 and an accepted content-type; exceptions give
`False`. -/
def test_catchup_day (net : Net) (days : Nat) : Bool :=
  match net.dayResp days with
  | some r => r.status == 200 && ctOk r.contentType
  | none => false

/-- Model of `StreamDetector._test_template`: HEAD with a short timeout, success is status
200 alone; exceptions give `False`. -/
def test_template (net : Net) (template : String) : Bool :=
  match net.tmplResp template with
  | some r => r.status == 200
  | none => false

/-- A network request the detector actually issued, carrying the URL requested. -/
inductive Probe where
  | connHead (url : String)
  | dayHead (url : String) (days : Nat)
  | tmplHead (url : String) (template : String)
  | metaGet (url : String)
deriving DecidableEq, Repr

/-- The URL a probe requested. -/
def Probe.url : Probe → String
  | Probe.connHead u => u
  | Probe.dayHead u _ => u
  | Probe.tmplHead u _ => u
  | Probe.metaGet u => u

/-- The list `test_days = [1, 3, 7, 15, 30]` (source line 42). -/
def test_days : List Nat := [1, 3, 7, 15, 30]

/-- The order `sorted(test_days, reverse=True)` (source line 43): the ascending list in
descending order. -/
def test_days_desc : List Nat := [30, 15, 7, 3, 1]

/-- The `for days in sorted(test_days, reverse=True)` loop with its `break`:
returns `(max_days, supported)` together with the probes issued. -/
def searchDays (net : Net) (url : String) : List Nat → Nat × Bool × List Probe
  | [] => (0, false, [])
  | d :: rest =>
    let e := Probe.dayHead (apply_catchup_params url d) d
    if test_catchup_day net d then (d, true, [e])
    else
      let r := searchDays net url rest
      (r.1, r.2.1, e :: r.2.2)

/-- The template list of `_find_best_template` (source lines 128–133, priority
order). -/
def best_templates : List String :=
  ["playseek={utc}-{utcend}", "timeshift={sec}", "utc={start}&end={end}", "dvr={days}"]

/-- The loop of `_find_best_template` with its early `return template`:
returns the first template whose probe succeeds, plus the probes issued. -/
def searchTemplate (net : Net) (url : String) : List String → Option String × List Probe
  | [] => (none, [])
  | t :: rest =>
    let e := Probe.tmplHead (apply_template url t) t
    if test_template net t then (some t, [e])
    else
      let r := searchTemplate net url rest
      (r.1, e :: r.2)

/-- Bytes of the literal `b"#EXTM3U"`. -/
def extm3uBytes : List Nat := [35, 69, 88, 84, 77, 51, 85]

/-- Model of `StreamDetector._get_stream_metadata`: one streaming GET; `(latency_ms,
codec_info)`, defaults `(0, "unknown")` when the GET raises. -/
def get_stream_metadata (net : Net) : Nat × String :=
  match net.metaResp with
  | none => (0, "unknown")
  | some m =>
    let fromCT :=
      if pyIn "mpegurl" m.contentType then "HLS"
      else if pyIn "mp2t" m.contentType then "MPEG-TS"
      else if pyIn "flv" m.contentType then "FLV"
      else "unknown"
    let codec :=
      if fromCT = "unknown" then
        if chHasSub (extm3uBytes.map Char.ofNat) (m.sample.map Char.ofNat) then "HLS"
        else if [(71 : Nat)].isPrefixOf m.sample ∨ [0, 0, 1, 186].isPrefixOf m.sample then "MPEG-TS"
        else "unknown"
      else fromCT
    (m.latencyMs, codec)

/-- The capability report (`detect_catchup_capability`'s result dict). -/
structure Report where
  supported : Bool
  max_days : Nat
  recommended_template : Option String
  latency_ms : Nat
  codec_info : String
deriving DecidableEq, Repr

/-- The initial result dict (source lines 29–35). -/
def zeroReport : Report :=
  { supported := false, max_days := 0, recommended_template := none,
    latency_ms := 0, codec_info := "unknown" }

/-- Model of `StreamDetector.detect_catchup_capability`, returning the report together with
the trace of probes issued: the connectivity gate, then (only when it passes) the
look-back search, the template search and the metadata GET.  The final
`result.update(...)` overwrites `latency_ms` and `codec_info` with the metadata
values. -/
def detect_catchup_capability (net : Net) (url : String) : Report × List Probe :=
  let connEvent := Probe.connHead url
  if ¬ test_connection net then (zeroReport, [connEvent])
  else
    let dayR := searchDays net url test_days_desc
    let tmplR := searchTemplate net url best_templates
    let meta := get_stream_metadata net
    ({ supported := dayR.2.1, max_days := dayR.1, recommended_template := tmplR.1,
       latency_ms := meta.1, codec_info := meta.2 },
     connEvent :: (dayR.2.2 ++ tmplR.2 ++ [Probe.metaGet url]))

/-! ## M3U parsing, merger path (`ChannelMerger._parse_extinf` / `parse_m3u`) -/

/-- Characters matched by the key group of the attribute regex
`([a-zA-Z0-9-]+)="([^"]*)"`. -/
def isKeyChar (c : Char) : Bool :=
  c.isAlphanum || c = '-'

/-- Scanner state for the attribute regex: building a key run, just saw `=` after a
nonempty key run, or inside a quoted value. -/
inductive AttrSt where
  | key (kRev : List Char)
  | eq (kRev : List Char)
  | val (k : List Char) (vRev : List Char)

/-- One-character step of the scan equivalent to
`re.findall(r'([a-zA-Z0-9-]+)="([^"]*)"', line)`: a maximal nonempty run of key
characters immediately followed by `="` opens a value that runs to the next `"`;
anything else advances the scan. -/
def scanAttrsGo : List Char → AttrSt → List (String × String)
  | [], _ => []
  | c :: rest, AttrSt.val k vRev =>
    if c = '"' then (String.mk k, String.mk vRev.reverse) :: scanAttrsGo rest (AttrSt.key [])
    else scanAttrsGo rest (AttrSt.val k (c :: vRev))
  | c :: rest, AttrSt.eq kRev =>
    if c = '"' then scanAttrsGo rest (AttrSt.val kRev.reverse [])
    else if isKeyChar c then scanAttrsGo rest (AttrSt.key [c])
    else scanAttrsGo rest (AttrSt.key [])
  | c :: rest, AttrSt.key kRev =>
    if isKeyChar c then scanAttrsGo rest (AttrSt.key (c :: kRev))
    else if c = '=' ∧ ¬ kRev.isEmpty then scanAttrsGo rest (AttrSt.eq kRev)
    else scanAttrsGo rest (AttrSt.key [])

/-- All `key="value"` attribute pairs of a line, in order. -/
def findAttrs (line : String) : List (String × String) :=
  scanAttrsGo line.data (AttrSt.key [])

/-- The attribute dispatch of `_parse_extinf` lines 33–41; an unparseable
`duration` value raises `ValueError` (uncaught inside the parser). -/
def merger_apply_attr (c : Chan) (kv : String × String) : Except PyErr Chan :=
  if kv.1 = "group-title" then Except.ok { c with group := kv.2 }
  else if kv.1 = "tvg-id" then Except.ok { c with tvg_id := kv.2 }
  else if kv.1 = "tvg-logo" then Except.ok { c with logo := kv.2 }
  else if kv.1 = "duration" then
    match pyInt kv.2 with
    | some n => Except.ok { c with duration := n }
    | none => Except.error PyErr.valueError
  else Except.ok c

/-- Model of `ChannelMerger._parse_extinf`.  The name-extraction branch
`if ', ' in line: channel['name'] = line.split(', ').strip()` calls `.strip()` on
the list returned by `split`, so whenever `", "` occurs in the line it raises
`AttributeError`; otherwise `name` keeps its default `''`. -/
def merger_parse_extinf (line : String) : Except PyErr Chan :=
  if pyIn ", " line then Except.error PyErr.attributeError
  else
    let base : Chan :=
      { name := "", group := "Other", tvg_id := "", logo := "", duration := -1,
        url := "", source := "", priority := 0 }
    (findAttrs line).foldlM merger_apply_attr base

/-- The line loop of `ChannelMerger.parse_m3u`: an `#EXTINF` line opens a pending
record; a following non-empty, non-`#` line closes it by supplying the URL and the
source; other lines leave the state unchanged. -/
def merger_parse_m3u_go (src : String) : List String → Option Chan → Except PyErr (List Chan)
  | [], _ => Except.ok []
  | l :: ls, cur =>
    let line := pyStrip l
    if line = "" then merger_parse_m3u_go src ls cur
    else if pyStarts line "#EXTINF" then
      match merger_parse_extinf line with
      | Except.error e => Except.error e
      | Except.ok c => merger_parse_m3u_go src ls (some c)
    else match cur with
      | some c =>
        if pyStarts line "#" then merger_parse_m3u_go src ls cur
        else
          match merger_parse_m3u_go src ls none with
          | Except.error e => Except.error e
          | Except.ok rest => Except.ok ({ c with url := line, source := src } :: rest)
      | none => merger_parse_m3u_go src ls cur

/-- Model of `ChannelMerger.parse_m3u`: split on newlines and run the line loop. -/
def merger_parse_m3u (content source_url : String) : Except PyErr (List Chan) :=
  merger_parse_m3u_go source_url (pySplitChar content '\n') none

/-! ## M3U parsing, generator path (`IPTVGenerator._parse_extinf`) -/

/-- Model of `IPTVGenerator._parse_extinf`.  Here `name_part = line.split(",", 1)` binds a list;
`name_part.strip()` (when the line contains a comma) raises `AttributeError`, and
otherwise `re.findall(pattern, name_part)` receives a list instead of a string and
raises `TypeError` — every call raises. -/
def generator_parse_extinf (line : String) : Except PyErr Chan :=
  let name_part := pySplit1 line ','
  if name_part.length > 1 then Except.error PyErr.attributeError
  else Except.error PyErr.typeError

/-! ## Static catchup injection

`IPTVGenerator._process_url` rebuilds the URL through
`urlparse`/`parse_qs`/`urlencode`/`urlunparse` (all imported there).  The model
keeps the URL in parsed form: the non-query part verbatim and the query as the
insertion-ordered `parse_qs` dict. -/

structure PyUrl where
  base : String
  query : List (String × List String)
deriving DecidableEq, Repr

/-- Assignment `query[k] = v` on a `parse_qs` dict. -/
def dictSetQ (q : List (String × List String)) (k : String) (v : List String) :
    List (String × List String) :=
  if q.any (fun p => p.1 = k) then q.map (fun p => if p.1 = k then (k, v) else p)
  else q ++ [(k, v)]

structure CatchupCfg where
  enable : Bool
  days : Int
  format : String
deriving DecidableEq, Repr

/-- Model of `IPTVGenerator._process_url`: return the URL unchanged unless catchup is
enabled with a positive day count, in which case set `query["playseek"]` to the
configured format string and rebuild. -/
def process_url (cfg : CatchupCfg) (u : PyUrl) : PyUrl :=
  if ¬ cfg.enable then u
  else if cfg.days ≤ 0 then u
  else { u with query := dictSetQ u.query "playseek" [cfg.format] }

/-! ## Output generation (`src/generators/m3u_generator.py`, driven by `main.py`) -/

structure TvbCatchup where
  enable : Bool
  days : Int
  template : String
deriving DecidableEq, Repr

/-- The URL after `_generate_catchup`'s string append:
`url += '&' if '?' in url else '?'; url += template`. -/
def m3u_catchup_url (template url : String) : String :=
  url ++ (if url.data.contains '?' then "&" else "?") ++ template

/-- Model of `M3UGenerator._generate_catchup`: mutates the channel dict in place, appending
the configured template to its URL when enabled.  The returned record models the
post-mutation state of the same dict. -/
def m3u_generate_catchup (cfg : TvbCatchup) (c : Chan) : Chan :=
  if ¬ cfg.enable then c
  else { c with url := m3u_catchup_url cfg.template c.url }

/-- The `#EXTINF` line `M3UGenerator.generate` renders for one channel. -/
def m3u_extinf_line (c : Chan) : String :=
  "#EXTINF:-1 tvg-id=\"" ++ c.tvg_id ++ "\" tvg-name=\"" ++ c.name ++
    "\" tvg-logo=\"" ++ c.logo ++ "\" group-title=\"" ++ c.group ++ "\"," ++ c.name

/-- Model of `M3UGenerator.generate`.  In the non-full (TVBox) mode every channel dict in
the caller's list is mutated by `_generate_catchup` before rendering; the second
component is the post-call state of that shared list (`now` stands for the
`datetime.now()` timestamp in the full header). -/
def m3u_generate (cfg : TvbCatchup) (epg now : String) (channels : List Chan)
    (full_format : Bool) : String × List Chan :=
  let header :=
    "#EXTM3U" ++
      (if full_format then
        " x-tvg-url=\"" ++ epg ++ "\"\n# Generated on " ++ now ++ "\n"
      else "")
  let chans := if full_format then channels else channels.map (m3u_generate_catchup cfg)
  let entries := chans.foldr (fun c acc => m3u_extinf_line c :: c.url :: acc) []
  (header ++ "\n" ++ joinSep "\n" entries, chans)

/-- The output-generation sequence of `main.py` lines 36–42: the TVBox variant is
rendered first from the merged catalog, then the full variant from the same
(shared) list; returns (tvbox text, full text, final state of the catalog). -/
def main_generate_outputs (cfg : TvbCatchup) (epg now : String) (merged : List Chan) :
    String × String × List Chan :=
  let tvbox := m3u_generate cfg epg now merged false
  let full := m3u_generate cfg epg now tvbox.2 true
  (tvbox.1, full.1, full.2)

/-! ## Concrete instances used by witnesses and counterexamples -/

/-- Two records agreeing on all fingerprint fields but differing in url, source and
priority. -/
def chanCNN1 : Chan :=
  { name := "CNN", group := "News", tvg_id := "1", logo := "", duration := -1,
    url := "http://a/1", source := "s1", priority := 1 }

def chanCNN2 : Chan :=
  { name := "CNN", group := "News", tvg_id := "1", logo := "", duration := -1,
    url := "http://b/22", source := "s2", priority := 9 }

/-- Higher priority, strictly shorter url. -/
def chanHiPrio : Chan :=
  { name := "A", group := "G", tvg_id := "", logo := "", duration := -1,
    url := "http://a/1", source := "s1", priority := 10 }

/-- Lower priority, strictly longer url, same fingerprint as `chanHiPrio`. -/
def chanLoPrio : Chan :=
  { name := "A", group := "G", tvg_id := "", logo := "", duration := -1,
    url := "http://a/12345", source := "s2", priority := 1 }

/-- A short recording excluded by the duration filter. -/
def chanShort : Chan :=
  { name := "S", group := "G", tvg_id := "", logo := "", duration := 5,
    url := "http://x/a.ts", source := "s", priority := 0 }

/-- A live record (`duration = -1`). -/
def chanLive : Chan :=
  { name := "L", group := "G", tvg_id := "", logo := "", duration := -1,
    url := "http://x/a.ts", source := "s", priority := 0 }

def filterTen : FilterCfg := { min_duration := 10, allowed_extensions := [".ts", ".m3u8"] }

/-- A network where the connectivity HEAD returns 404. -/
def netDown : Net :=
  { connResp := some { status := 404, contentType := "" },
    dayResp := fun _ => none, tmplResp := fun _ => none, metaResp := none }

/-- A network where everything succeeds: connectivity 200, every look-back window
200 with a video content-type, every template probe 200, and a metadata response. -/
def netUp : Net :=
  { connResp := some { status := 200, contentType := "" },
    dayResp := fun _ => some { status := 200, contentType := "video/mp2t" },
    tmplResp := fun _ => some { status := 200, contentType := "" },
    metaResp := some { latencyMs := 42, contentType := "video/mp2t", sample := [] } }

/-- A network that passes the gate, accepts only the 7-day window, and accepts only
the `dvr={days}` template. -/
def netSeven : Net :=
  { connResp := some { status := 200, contentType := "" },
    dayResp := fun d => if d = 7 then some { status := 200, contentType := "video/mp2t" }
                        else some { status := 404, contentType := "" },
    tmplResp := fun t => if t = "dvr={days}" then some { status := 200, contentType := "" }
                         else none,
    metaResp := some { latencyMs := 42, contentType := "", sample := [] } }

def cfgCatchupOn : TvbCatchup := { enable := true, days := 3, template := "playseek=p" }

/-- The record of the C8 catalog. -/
def chanTs : Chan :=
  { name := "N", group := "G", tvg_id := "", logo := "", duration := -1,
    url := "http://x/a.ts", source := "s", priority := 1 }

/-- The M3U input of the parser round-trip property. -/
def c9_input : String :=
  "#EXTM3U\n#EXTINF:-1 tvg-id=\"1\" group-title=\"News\",CNN\nhttp://x/cnn.m3u8\n"

/-- The EXTINF line of `c9_input`. -/
def c9_extinf : String :=
  "#EXTINF:-1 tvg-id=\"1\" group-title=\"News\",CNN"

/-- A generator-path catchup configuration. -/
def cfgProcessUrl : CatchupCfg := { enable := true, days := 3, format := "playseek={utc}-{utcend}" }

/-- A parsed URL already carrying a `playseek` key and another parameter. -/
def urlWithPlayseek : PyUrl :=
  { base := "http://x/s", query := [("a", ["1"]), ("playseek", ["old"]), ("b", ["2"])] }

/-- The look-back windows actually probed during a detection run, in request
order (read off the probe trace). -/
def probedWindows (net : Net) (url : String) : List Nat :=
  (detect_catchup_capability net url).2.filterMap fun p =>
    match p with
    | Probe.dayHead _ d => some d
    | _ => none

/-- Incumbent-vs-newcomer choice on an integer measure: the newcomer replaces the
incumbent only with a strictly larger measure (the shape of both deduplication
loops). -/
def pickBest (f : Chan -> Int) (cur new : Chan) : Chan :=
  if f cur < f new then new else cur

/-- The record a measure-based deduplication loop keeps from one fingerprint
group listed in processing order; `none` for an empty group. -/
def groupWinner (f : Chan -> Int) : List Chan -> Option Chan
  | [] => none
  | c :: rest => some (rest.foldl (pickBest f) c)

/-- Url length, the measure `ChannelMerger.merge` compares. -/
def urlLen (c : Chan) : Int := (c.url.length : Int)

/-- Priority, the measure `IPTVGenerator.process_sources` compares. -/
def chanPrio (c : Chan) : Int := c.priority

/-- Decidable equality for `Except` results. -/
instance instDecEqExcept {e a : Type} [DecidableEq e] [DecidableEq a] :
    DecidableEq (Except e a) := fun x y =>
  match x, y with
  | Except.ok u, Except.ok v =>
    if h : u = v then Decidable.isTrue (by rw [h])
    else Decidable.isFalse (by intro he; cases he; exact h rfl)
  | Except.error u, Except.error v =>
    if h : u = v then Decidable.isTrue (by rw [h])
    else Decidable.isFalse (by intro he; cases he; exact h rfl)
  | Except.ok _, Except.error _ => Decidable.isFalse (by intro he; cases he)
  | Except.error _, Except.ok _ => Decidable.isFalse (by intro he; cases he)

/-! ## Theorems -/

/-- C6: the identity fingerprint is a deterministic function of the record's
qualifying fields only — `(name, group)` for the merge-engine path and
`(group, name, tvgId)` for the generator path: records agreeing on those fields
fingerprint identically regardless of sourceId, priority, url or processing
order. -/
theorem C6_fingerprint_deterministic :
    (∀ a b : Chan, a.name = b.name → a.group = b.group →
      merger_channel_id a = merger_channel_id b) ∧
    (∀ a b : Chan, a.group = b.group → a.name = b.name → a.tvg_id = b.tvg_id →
      generator_channel_key a = generator_channel_key b) := by
  constructor
  · intro a b hn hg
    simp [merger_channel_id, hn, hg]
  · intro a b hg hn ht
    simp [generator_channel_key, hn, hg, ht]

/-- Witness for C6 at two concrete records that differ in url, source and
priority. -/
theorem C6_fingerprint_deterministic_witness :
    merger_channel_id chanCNN1 = merger_channel_id chanCNN2 ∧
    generator_channel_key chanCNN1 = generator_channel_key chanCNN2 :=
  ⟨C6_fingerprint_deterministic.1 chanCNN1 chanCNN2 rfl rfl,
   C6_fingerprint_deterministic.2 chanCNN1 chanCNN2 rfl rfl rfl⟩

/-- C5: the merge drops a record exactly when (a) `minDurationSeconds > 0` and
`0 < durationSeconds < minDurationSeconds`, or (b) the lowercase url does not end
with any allowed extension; a record with `durationSeconds = -1` is never excluded
by the duration filter. -/
theorem C5_filter_rule (f : FilterCfg) (cs : List Chan) (c : Chan) (hc : c ∈ cs) :
    (c ∉ apply_filters f cs ↔
      (f.min_duration > 0 ∧ 0 < c.duration ∧ c.duration < f.min_duration) ∨
      ¬ ((f.allowed_extensions.any fun ext => pyEnds (pyLower c.url) ext) = true)) ∧
    (c.duration = -1 →
      (c ∈ apply_filters f cs ↔
        (f.allowed_extensions.any fun ext => pyEnds (pyLower c.url) ext) = true)) := by
  have hmem : c ∈ apply_filters f cs ↔ keep_channel f c = true := by
    simp [apply_filters, List.mem_filter, hc]
  have hk : keep_channel f c = true ↔
      ¬ (f.min_duration > 0 ∧ 0 < c.duration ∧ c.duration < f.min_duration) ∧
      (f.allowed_extensions.any fun ext => pyEnds (pyLower c.url) ext) = true := by
    unfold keep_channel
    split_ifs with h1 h2 <;> simp_all
  constructor
  · rw [hmem, hk]
    by_cases hA : (f.min_duration > 0 ∧ 0 < c.duration ∧ c.duration < f.min_duration) <;>
      by_cases hB : (f.allowed_extensions.any fun ext => pyEnds (pyLower c.url) ext) = true <;>
      simp [hA, hB]
  · intro hd
    have hA : ¬ (f.min_duration > 0 ∧ 0 < c.duration ∧ c.duration < f.min_duration) := by
      rintro ⟨_, h2, _⟩
      rw [hd] at h2
      norm_num at h2
    rw [hmem, hk]
    simp [hA]

/-- Witness for C5: a 5-second record is dropped under `minDuration = 10`, and a
live (`-1`) record with an allowed extension is kept. -/
theorem C5_filter_rule_witness :
    chanShort ∈ [chanShort, chanLive] ∧ chanLive ∈ [chanShort, chanLive] ∧
    chanLive.duration = -1 ∧
    chanShort ∉ apply_filters filterTen [chanShort, chanLive] ∧
    chanLive ∈ apply_filters filterTen [chanShort, chanLive] := by
  refine ⟨by decide, by decide, by decide, ?_, ?_⟩
  · exact (C5_filter_rule filterTen [chanShort, chanLive] chanShort (by decide)).1.mpr
      (Or.inl (by decide))
  · exact ((C5_filter_rule filterTen [chanShort, chanLive] chanLive (by decide)).2
      (by decide)).mpr (by decide)

/-- The name `urlunparse` is not among the names bound in `src/detector.py`. -/
theorem urlunparse_unbound : pyLookupName "urlunparse" = Except.error PyErr.nameError := by
  rfl

/-- Every try-block iteration of the probe-URL synthesis raises (`NameError` on
`urlunparse`) and is swallowed. -/
theorem apply_catchup_iteration_none (url param : String) :
    apply_catchup_iteration url param = none := by
  simp [apply_catchup_iteration, urlunparse_unbound]

/-- The helper `_apply_catchup_params` returns its input URL for every day count. -/
theorem apply_catchup_params_id (url : String) (days : Nat) :
    apply_catchup_params url days = url := by
  simp [apply_catchup_params, List.findSome?, apply_params_templates,
    apply_catchup_iteration_none]

/-- The helper `_apply_template` returns its input URL for every template. -/
theorem apply_template_id (url template : String) :
    apply_template url template = url := by
  simp [apply_template, apply_catchup_iteration_none]

/-- Every probe recorded by the look-back search requests the original URL. -/
theorem searchDays_trace_urls (net : Net) (url : String) :
    ∀ ds : List Nat, ∀ p ∈ (searchDays net url ds).2.2, Probe.url p = url := by
  intro ds
  induction ds with
  | nil =>
    intro p hp
    simp [searchDays] at hp
  | cons d rest ih =>
    intro p hp
    by_cases h : test_catchup_day net d
    · simp [searchDays, h] at hp
      simp [hp, Probe.url, apply_catchup_params_id]
    · simp [searchDays, h] at hp
      rcases hp with hp | hp
      · simp [hp, Probe.url, apply_catchup_params_id]
      · exact ih p hp

/-- Every probe recorded by the template search requests the original URL. -/
theorem searchTemplate_trace_urls (net : Net) (url : String) :
    ∀ ts : List String, ∀ p ∈ (searchTemplate net url ts).2, Probe.url p = url := by
  intro ts
  induction ts with
  | nil =>
    intro p hp
    simp [searchTemplate] at hp
  | cons t rest ih =>
    intro p hp
    by_cases h : test_template net t
    · simp [searchTemplate, h] at hp
      simp [hp, Probe.url, apply_template_id]
    · simp [searchTemplate, h] at hp
      rcases hp with hp | hp
      · simp [hp, Probe.url, apply_template_id]
      · exact ih p hp

/-- C10: the probe-URL synthesis helpers return the input URL unchanged — the name
`urlunparse` is absent from detector.py's imports, the `NameError` is swallowed by
the bare except, and the fallback returns the original URL — so every probe issued
during detection requests the unmodified stream URL. -/
theorem C10_synthesis_identity :
    detector_imported_names.contains "urlunparse" = false ∧
    (∀ url days, apply_catchup_params url days = url) ∧
    (∀ url template, apply_template url template = url) ∧
    (∀ net url, ∀ p ∈ (detect_catchup_capability net url).2, Probe.url p = url) := by
  refine ⟨by decide, apply_catchup_params_id, apply_template_id, ?_⟩
  intro net url p hp
  by_cases h : test_connection net
  · simp [detect_catchup_capability, h] at hp
    rcases hp with hp | hp | hp | hp
    · simp [hp, Probe.url]
    · exact searchDays_trace_urls net url test_days_desc p hp
    · exact searchTemplate_trace_urls net url best_templates p hp
    · simp [hp, Probe.url]
  · simp [detect_catchup_capability, h] at hp
    simp [hp, Probe.url]

/-- Witness for C10: a concrete probe of a concrete detection run requests the
unmodified URL. -/
theorem C10_synthesis_identity_witness :
    apply_catchup_params "http://x/s.m3u8?a=1" 30 = "http://x/s.m3u8?a=1" ∧
    Probe.connHead "http://x/s.m3u8?a=1" ∈
      (detect_catchup_capability netUp "http://x/s.m3u8?a=1").2 ∧
    Probe.url (Probe.connHead "http://x/s.m3u8?a=1") = "http://x/s.m3u8?a=1" :=
  ⟨C10_synthesis_identity.2.1 "http://x/s.m3u8?a=1" 30,
   by decide,
   C10_synthesis_identity.2.2.2 netUp "http://x/s.m3u8?a=1"
     (Probe.connHead "http://x/s.m3u8?a=1") (by decide)⟩

/-- C7: when the connectivity gate fails (network failure or a non-200 status),
detection returns the zero report — `supported=false`, `maxDays=0`, no recommended
template, zero latency, unknown codec — and issues no look-back, template or
metadata probe. -/
theorem C7_gate_failure (net : Net) (url : String)
    (h : net.connResp = none ∨ ∃ r, net.connResp = some r ∧ r.status ≠ 200) :
    detect_catchup_capability net url =
      ({ supported := false, max_days := 0, recommended_template := none,
         latency_ms := 0, codec_info := "unknown" }, [Probe.connHead url]) := by
  have hconn : test_connection net = false := by
    rcases h with h | ⟨r, hr, hs⟩
    · simp [test_connection, h]
    · simp [test_connection, hr]
      omega
  simp [detect_catchup_capability, hconn, zeroReport]

/-- Witness for C7: a 404 on the connectivity probe yields the zero report and a
one-probe trace. -/
theorem C7_gate_failure_witness :
    (netDown.connResp = none ∨ ∃ r, netDown.connResp = some r ∧ r.status ≠ 200) ∧
    detect_catchup_capability netDown "http://x/s" =
      ({ supported := false, max_days := 0, recommended_template := none,
         latency_ms := 0, codec_info := "unknown" }, [Probe.connHead "http://x/s"]) :=
  ⟨Or.inr ⟨{ status := 404, contentType := "" }, rfl, by decide⟩,
   C7_gate_failure netDown "http://x/s"
     (Or.inr ⟨{ status := 404, contentType := "" }, rfl, by decide⟩)⟩

/-- Looking up a key that the first list resolves. -/
theorem lookup_append_of_some {β : Type} (l₁ l₂ : List (String × β)) (k : String) (v : β)
    (h : l₁.lookup k = some v) : (l₁ ++ l₂).lookup k = some v := by
  induction l₁ with
  | nil => simp [List.lookup] at h
  | cons p rest ih =>
    obtain ⟨k1, v1⟩ := p
    by_cases hk : k = k1
    · subst hk
      simp [List.lookup_cons] at h ⊢
      exact h
    · simp [List.lookup_cons, beq_false_of_ne hk] at h ⊢
      exact ih h

/-- Looking up a key the first list does not contain. -/
theorem lookup_append_of_none {β : Type} (l₁ l₂ : List (String × β)) (k : String)
    (h : l₁.lookup k = none) : (l₁ ++ l₂).lookup k = l₂.lookup k := by
  induction l₁ with
  | nil => simp
  | cons p rest ih =>
    obtain ⟨k1, v1⟩ := p
    by_cases hk : k = k1
    · subst hk
      simp [List.lookup_cons] at h
    · simp only [List.lookup_cons, beq_false_of_ne hk, List.cons_append] at h ⊢
      exact ih h

/-- In-place replacement of every pair at a key leaves other keys' bindings
unchanged. -/
theorem lookup_map_replace_ne {β : Type} (q : List (String × β)) (k k' : String) (v : β)
    (h : k' ≠ k) :
    (q.map fun p => if p.1 = k then (k, v) else p).lookup k' = q.lookup k' := by
  induction q with
  | nil => simp
  | cons p rest ih =>
    obtain ⟨k1, v1⟩ := p
    by_cases hp : k1 = k
    · subst hp
      simp only [List.map_cons, if_pos rfl]
      simp [List.lookup_cons, beq_false_of_ne h, ih]
    · simp only [List.map_cons, if_neg hp]
      by_cases hk' : k' = k1
      · subst hk'
        simp [List.lookup_cons]
      · simp [List.lookup_cons, beq_false_of_ne hk', ih]

/-- In-place replacement binds the key to the new value whenever some pair carries
the key. -/
theorem lookup_map_replace_self {β : Type} (q : List (String × β)) (k : String) (v : β)
    (hmem : (q.any fun p => p.1 = k) = true) :
    (q.map fun p => if p.1 = k then (k, v) else p).lookup k = some v := by
  induction q with
  | nil => simp at hmem
  | cons p rest ih =>
    obtain ⟨k1, v1⟩ := p
    by_cases hp : k1 = k
    · subst hp
      simp only [List.map_cons, if_pos rfl]
      simp [List.lookup_cons]
    · simp only [List.map_cons, if_neg hp]
      simp only [List.any_cons] at hmem
      have hmem' : (rest.any fun p => p.1 = k) = true := by
        rcases Bool.or_eq_true_iff.mp hmem with h1 | h1
        · exact absurd (of_decide_eq_true h1) hp
        · exact h1
      simp [List.lookup_cons, beq_false_of_ne (fun he => hp he.symm), ih hmem']

/-- A key carried by no pair looks up to `none`. -/
theorem lookup_none_of_not_mem {β : Type} (q : List (String × β)) (k : String)
    (hmem : (q.any fun p => p.1 = k) = false) : q.lookup k = none := by
  induction q with
  | nil => simp
  | cons p rest ih =>
    obtain ⟨k1, v1⟩ := p
    simp only [List.any_cons, Bool.or_eq_false_iff] at hmem
    have hk : k ≠ k1 := fun he => by simp [he] at hmem
    simp only [List.lookup_cons, beq_false_of_ne hk]
    exact ih hmem.2

/-- Updating via `dictSetQ` leaves every other key's binding unchanged. -/
theorem lookup_dictSetQ_ne (q : List (String × List String)) (k k' : String) (v : List String)
    (h : k' ≠ k) : (dictSetQ q k v).lookup k' = q.lookup k' := by
  unfold dictSetQ
  split_ifs with hmem
  · exact lookup_map_replace_ne q k k' v h
  · by_cases hq : q.lookup k' = none
    · rw [lookup_append_of_none _ _ _ hq, hq]
      simp [List.lookup_cons, beq_false_of_ne h]
    · obtain ⟨w, hw⟩ := Option.ne_none_iff_exists'.mp hq
      rw [lookup_append_of_some _ _ _ _ hw, hw]

/-- Updating via `dictSetQ` binds the assigned key to the assigned value. -/
theorem lookup_dictSetQ_self (q : List (String × List String)) (k : String) (v : List String) :
    (dictSetQ q k v).lookup k = some v := by
  unfold dictSetQ
  split_ifs with hmem
  · exact lookup_map_replace_self q k v hmem
  · rw [lookup_append_of_none _ _ _
      (lookup_none_of_not_mem q k (Bool.not_eq_true _ ▸ eq_false_of_ne_true hmem))]
    simp [List.lookup_cons]

/-- Counterexample to C4 as stated.  (i) The resolver's probe-URL synthesis does
not add the catchup key at all: `_apply_catchup_params` returns the URL unchanged.
(ii) The merge engine's static injection (`M3UGenerator._generate_catchup`) does
not overwrite an existing catchup key: appending `catchup=new` to a URL already
carrying `catchup=old` leaves both values in the query. -/
theorem C4_counterexample :
    apply_catchup_params "http://x/a?catchup=old" 1 = "http://x/a?catchup=old" ∧
    queryPairs (apply_catchup_params "http://x/a" 1) = [] ∧
    m3u_catchup_url "catchup=new" "http://x/a?catchup=old" =
      "http://x/a?catchup=old&catchup=new" ∧
    (queryPairs (m3u_catchup_url "catchup=new" "http://x/a?catchup=old")).filter
        (fun p => p.1 = "catchup") =
      [("catchup", "old"), ("catchup", "new")] := by
  refine ⟨apply_catchup_params_id _ _, ?_, ?_, ?_⟩
  · rw [apply_catchup_params_id]
    decide
  · decide
  · decide

/-- C4 amended: the generator's `_process_url` injection preserves all existing
query parameters and adds the playseek key, overwriting it if present (when
catchup is enabled with a positive day count); the M3U generator's static
injection preserves the whole URL — its query parameters included — as a prefix
and appends the configured template after a `&`/`?` separator, without overwriting
an existing key; the resolver's probe-URL synthesis returns the URL unchanged and
adds nothing. -/
theorem C4_amended :
    (∀ (cfg : CatchupCfg) (u : PyUrl), cfg.enable = true → 0 < cfg.days →
      (process_url cfg u).base = u.base ∧
      (∀ k, k ≠ "playseek" → (process_url cfg u).query.lookup k = u.query.lookup k) ∧
      (process_url cfg u).query.lookup "playseek" = some [cfg.format]) ∧
    (∀ template url, ∃ sep, m3u_catchup_url template url = url ++ sep ++ template ∧
      (sep = "&" ∨ sep = "?")) ∧
    (∀ url days, apply_catchup_params url days = url) := by
  refine ⟨?_, ?_, apply_catchup_params_id⟩
  · intro cfg u hen hdays
    have hne : ¬ cfg.days ≤ 0 := by omega
    refine ⟨?_, ?_, ?_⟩
    · simp [process_url, hen, hne]
    · intro k hk
      simp only [process_url, hen, hne, Bool.not_true, if_neg, ite_false]
      simp [lookup_dictSetQ_ne u.query "playseek" k [cfg.format] hk]
    · simp only [process_url, hen, hne, Bool.not_true, if_neg, ite_false]
      simp [lookup_dictSetQ_self]
  · intro template url
    by_cases h : '?' ∈ url.data
    · exact ⟨"&", by simp [m3u_catchup_url, h], Or.inl rfl⟩
    · exact ⟨"?", by simp [m3u_catchup_url, h], Or.inr rfl⟩

/-- Witness for C4 amended at a URL that already carries a `playseek` key and two
other parameters. -/
theorem C4_amended_witness :
    cfgProcessUrl.enable = true ∧ 0 < cfgProcessUrl.days ∧
    "a" ≠ "playseek" ∧
    (process_url cfgProcessUrl urlWithPlayseek).base = urlWithPlayseek.base ∧
    (process_url cfgProcessUrl urlWithPlayseek).query.lookup "a" =
      urlWithPlayseek.query.lookup "a" ∧
    (process_url cfgProcessUrl urlWithPlayseek).query.lookup "playseek" =
      some [cfgProcessUrl.format] := by
  have h := C4_amended.1 cfgProcessUrl urlWithPlayseek rfl (by decide)
  exact ⟨rfl, by decide, by decide, h.1, h.2.1 "a" (by decide), h.2.2⟩

/-- C9 (code bug): on the round-trip input, the merge-engine parser produces one
record whose name is `""` instead of `"CNN"` — the guard `', ' in line` never
matches this line, so the name assignment is skipped (and when it does match, the
assignment calls `.strip()` on a list) — while the generator-path `_parse_extinf`
raises `AttributeError` on the same EXTINF line because `line.split(",", 1)`
returns a list and the code calls `.strip()` on it. -/
theorem C9_parser_round_trip_bug :
    merger_parse_m3u c9_input "src" =
      Except.ok [{ name := "", group := "News", tvg_id := "1", logo := "",
                   duration := -1, url := "http://x/cnn.m3u8", source := "src",
                   priority := 0 }] ∧
    (match merger_parse_m3u c9_input "src" with
     | Except.ok cs => cs.map Chan.name
     | Except.error _ => []) = [""] ∧
    pyIn ", " c9_extinf = false ∧
    (pySplit1 c9_extinf ',').length > 1 ∧
    generator_parse_extinf c9_extinf = Except.error PyErr.attributeError := by
  refine ⟨by decide, by decide, by decide, by decide, ?_⟩
  simp [generator_parse_extinf]
  decide

/-- C8 (code bug): with catchup enabled, generating the restricted (TVBox) M3U
variant mutates the shared catalog records in place — `_generate_catchup` appends
the template to each record's url — so the catalog is changed, and the full
variant rendered afterwards from the same list emits the mutated urls instead of
the catalog's originals. -/
theorem C8_shared_catalog_mutation :
    (m3u_generate cfgCatchupOn "e" "t" [chanTs] false).2 ≠ [chanTs] ∧
    (m3u_generate cfgCatchupOn "e" "t" [chanTs] false).2.map Chan.url =
      ["http://x/a.ts?playseek=p"] ∧
    (main_generate_outputs cfgCatchupOn "e" "t" [chanTs]).2.2.map Chan.url =
      ["http://x/a.ts?playseek=p"] ∧
    pyIn "\nhttp://x/a.ts?playseek=p" (main_generate_outputs cfgCatchupOn "e" "t" [chanTs]).2.1
      = true ∧
    pyIn "\nhttp://x/a.ts\n" (main_generate_outputs cfgCatchupOn "e" "t" [chanTs]).2.1
      = false := by
  refine ⟨by decide, by decide, by decide, by decide, by decide⟩

/-- Counterexample to C1 as stated: in `ChannelMerger.merge` two records with the
same fingerprint are resolved by url length alone — the record with strictly
higher priority loses to a lower-priority record with a longer url, contradicting
"the record with strictly higher priority wins regardless of input order". -/
theorem C1_counterexample :
    merger_channel_id chanHiPrio = merger_channel_id chanLoPrio ∧
    chanLoPrio.priority < chanHiPrio.priority ∧
    (merger_dedup [chanHiPrio, chanLoPrio]).lookup (merger_channel_id chanHiPrio) =
      some chanLoPrio ∧
    (merger_dedup [chanLoPrio, chanHiPrio]).lookup (merger_channel_id chanHiPrio) =
      some chanLoPrio := by
  refine ⟨by decide, by decide, by decide, by decide⟩

/-- A key that looks up successfully is carried by some pair. -/
theorem any_key_of_lookup_some {β : Type} (l : List (String × β)) (k : String) (v : β)
    (h : l.lookup k = some v) : (l.any fun p => p.1 = k) = true := by
  induction l with
  | nil => simp [List.lookup] at h
  | cons p rest ih =>
    obtain ⟨k1, v1⟩ := p
    by_cases hk : k = k1
    · subst hk
      simp
    · simp only [List.lookup_cons, beq_false_of_ne hk] at h
      simp [ih h]

/-- A key looks up to `none` exactly when it is not among the stored keys. -/
theorem lookup_none_iff_keys {β : Type} (l : List (String × β)) (k : String) :
    l.lookup k = none ↔ k ∉ l.map Prod.fst := by
  induction l with
  | nil => simp
  | cons p rest ih =>
    obtain ⟨k1, v1⟩ := p
    by_cases hk : k = k1
    · subst hk
      simp [List.lookup_cons]
    · simp [List.lookup_cons, beq_false_of_ne hk, hk, ih]

/-- Replacing via `dictReplace` keeps the stored keys unchanged. -/
theorem dictReplace_keys (acc : List (String × Chan)) (k : String) (c : Chan) :
    (dictReplace acc k c).map Prod.fst = acc.map Prod.fst := by
  unfold dictReplace
  induction acc with
  | nil => rfl
  | cons p rest ih =>
    obtain ⟨k1, v1⟩ := p
    by_cases h : k1 = k
    · subst h
      simp [ih]
    · simp [h, ih]

/-- The deduplication fold keeps its stored keys duplicate-free. -/
theorem dedup_fold_keys_nodup (key : Chan → String) (upd : Chan → Chan → Bool) :
    ∀ (cs : List Chan) (acc : List (String × Chan)),
      (acc.map Prod.fst).Nodup →
      ((List.foldl (dedup_step key upd) acc cs).map Prod.fst).Nodup := by
  intro cs
  induction cs with
  | nil =>
    intro acc h
    simpa using h
  | cons c rest ih =>
    intro acc h
    rw [List.foldl_cons]
    refine ih _ ?_
    cases hl : acc.lookup (key c) with
    | none =>
      have hstep : dedup_step key upd acc c = acc ++ [(key c, c)] := by
        simp [dedup_step, hl]
      rw [hstep]
      simp only [List.map_append, List.map_cons, List.map_nil]
      rw [List.nodup_append]
      refine ⟨h, by simp, ?_⟩
      intro a ha hb
      simp at hb
      subst hb
      exact (lookup_none_iff_keys acc (key c)).mp hl ha
    | some old =>
      by_cases hu : upd old c
      · have hstep : dedup_step key upd acc c = dictReplace acc (key c) c := by
          simp [dedup_step, hl, hu]
        rw [hstep, dictReplace_keys]
        exact h
      · have hstep : dedup_step key upd acc c = acc := by
          simp [dedup_step, hl, hu]
        rw [hstep]
        exact h

/-- Characterization of the deduplication fold: for each fingerprint, the stored
record is the strict-improvement fold over the fingerprint's records in
processing order. -/
theorem dedup_fold_lookup (key : Chan → String) (upd : Chan → Chan → Bool) (f : Chan → Int)
    (hupd : ∀ o n, upd o n = decide (f o < f n)) (cid : String) :
    ∀ (cs : List Chan) (acc : List (String × Chan)),
      (List.foldl (dedup_step key upd) acc cs).lookup cid =
        match acc.lookup cid with
        | some w => some ((cs.filter fun c => key c = cid).foldl (pickBest f) w)
        | none => groupWinner f (cs.filter fun c => key c = cid) := by
  intro cs
  induction cs with
  | nil =>
    intro acc
    cases h : acc.lookup cid <;> simp [groupWinner, h]
  | cons c rest ih =>
    intro acc
    rw [List.foldl_cons, ih]
    by_cases hkey : key c = cid
    · subst hkey
      cases h : acc.lookup (key c) with
      | none =>
        have hacc' : (dedup_step key upd acc c).lookup (key c) = some c := by
          have hstep : dedup_step key upd acc c = acc ++ [(key c, c)] := by
            simp [dedup_step, h]
          rw [hstep, lookup_append_of_none _ _ _ h]
          simp [List.lookup_cons]
        rw [hacc']
        simp [groupWinner, List.filter_cons]
      | some w =>
        by_cases hu : upd w c
        · have hlt : f w < f c := of_decide_eq_true ((hupd w c) ▸ hu)
          have hacc' : (dedup_step key upd acc c).lookup (key c) = some c := by
            have hstep : dedup_step key upd acc c = dictReplace acc (key c) c := by
              simp [dedup_step, h, hu]
            rw [hstep]
            exact lookup_map_replace_self acc (key c) c (any_key_of_lookup_some acc _ w h)
          rw [hacc']
          simp [List.filter_cons, List.foldl_cons, pickBest, hlt]
        · have hnlt : ¬ f w < f c := by
            intro hlt
            rw [hupd w c] at hu
            exact hu (decide_eq_true hlt)
          have hacc' : (dedup_step key upd acc c).lookup (key c) = some w := by
            have hstep : dedup_step key upd acc c = acc := by
              simp [dedup_step, h, hu]
            rw [hstep, h]
          rw [hacc']
          simp [List.filter_cons, List.foldl_cons, pickBest, hnlt]
    · have hfilter : ((c :: rest).filter fun x => key x = cid) =
          rest.filter fun x => key x = cid := by
        simp [List.filter_cons, hkey]
      have hacc' : (dedup_step key upd acc c).lookup cid = acc.lookup cid := by
        cases hl : acc.lookup (key c) with
        | none =>
          have hstep : dedup_step key upd acc c = acc ++ [(key c, c)] := by
            simp [dedup_step, hl]
          rw [hstep]
          cases hcid : acc.lookup cid with
          | none =>
            rw [lookup_append_of_none _ _ _ hcid]
            simp [List.lookup_cons, beq_false_of_ne (fun he => hkey he.symm)]
          | some v =>
            rw [lookup_append_of_some _ _ _ _ hcid]
        | some old =>
          by_cases hu : upd old c
          · have hstep : dedup_step key upd acc c = dictReplace acc (key c) c := by
              simp [dedup_step, hl, hu]
            rw [hstep]
            exact lookup_map_replace_ne acc (key c) cid c (fun he => hkey he.symm)
          · have hstep : dedup_step key upd acc c = acc := by
              simp [dedup_step, hl, hu]
            rw [hstep]
      rw [hacc']
      cases hcid : acc.lookup cid <;> simp [hfilter]

/-- The strict-improvement fold selects the leftmost record attaining the maximal
measure: everything before the winner is strictly smaller, everything after is no
larger. -/
theorem foldl_pickBest_spec (f : Chan → Int) :
    ∀ (cs : List Chan) (c : Chan),
      ∃ l1 l2, c :: cs = l1 ++ (cs.foldl (pickBest f) c) :: l2 ∧
        (∀ x ∈ l1, f x < f (cs.foldl (pickBest f) c)) ∧
        (∀ x ∈ l2, f x ≤ f (cs.foldl (pickBest f) c)) := by
  intro cs
  induction cs with
  | nil =>
    intro c
    exact ⟨[], [], by simp, by simp, by simp⟩
  | cons n rest ih =>
    intro c
    by_cases h : f c < f n
    · have hfold : (n :: rest).foldl (pickBest f) c = rest.foldl (pickBest f) n := by
        simp [List.foldl_cons, pickBest, h]
      obtain ⟨l1, l2, heq, h1, h2⟩ := ih n
      rw [hfold]
      have hcw : f c < f (rest.foldl (pickBest f) n) := by
        cases l1 with
        | nil =>
          simp only [List.nil_append] at heq
          have hn : n = rest.foldl (pickBest f) n := (List.cons.injEq _ _ _ _ ▸ heq).1
          rw [← hn]
          exact h
        | cons a l1' =>
          have ha : n = a := by
            simpa using congrArg List.head? heq
          have : f a < f (rest.foldl (pickBest f) n) := h1 a (List.mem_cons_self a l1')
          exact lt_trans (ha ▸ h) this
      refine ⟨c :: l1, l2, ?_, ?_, h2⟩
      · rw [List.cons_append, ← heq]
      · intro x hx
        rcases List.mem_cons.mp hx with hx | hx
        · rw [hx]
          exact hcw
        · exact h1 x hx
    · have hfold : (n :: rest).foldl (pickBest f) c = rest.foldl (pickBest f) c := by
        simp [List.foldl_cons, pickBest, h]
      obtain ⟨l1, l2, heq, h1, h2⟩ := ih c
      rw [hfold]
      cases l1 with
      | nil =>
        simp only [List.nil_append] at heq
        have hc : c = rest.foldl (pickBest f) c := (List.cons.injEq _ _ _ _ ▸ heq).1
        have hl2 : rest = l2 := (List.cons.injEq _ _ _ _ ▸ heq).2
        refine ⟨[], n :: l2, ?_, by simp, ?_⟩
        · rw [List.nil_append, ← hc, ← hl2]
        · intro x hx
          rcases List.mem_cons.mp hx with hx | hx
          · rw [hx, ← hc]
            exact not_lt.mp h
          · exact h2 x hx
      | cons a l1' =>
        have ha : c = a := by
          simpa using congrArg List.head? heq
        have hrest : rest = l1' ++ (rest.foldl (pickBest f) c) :: l2 := by
          have := congrArg List.tail heq
          simpa using this
        have hcw : f c < f (rest.foldl (pickBest f) c) :=
          ha ▸ h1 a (List.mem_cons_self a l1')
        refine ⟨c :: n :: l1', l2, ?_, ?_, h2⟩
        · rw [List.cons_append, List.cons_append, ← hrest]
        · intro x hx
          rcases List.mem_cons.mp hx with hx | hx
          · rw [hx]
            exact hcw
          · rcases List.mem_cons.mp hx with hx | hx
            · rw [hx]
              exact lt_of_le_of_lt (not_lt.mp h) hcw
            · exact h1 x (ha ▸ List.mem_cons_of_mem a hx)

/-- An empty group has no winner; a nonempty group always has one. -/
theorem groupWinner_eq_none_iff (f : Chan → Int) (l : List Chan) :
    groupWinner f l = none ↔ l = [] := by
  cases l <;> simp [groupWinner]

/-- The merge-engine deduplication stores, at each fingerprint, the
url-length-fold winner of that fingerprint's records. -/
theorem merger_dedup_lookup (cs : List Chan) (cid : String) :
    (merger_dedup cs).lookup cid =
      groupWinner urlLen (cs.filter fun c => merger_channel_id c = cid) := by
  have hupd : ∀ o n : Chan,
      (decide (o.url.length < n.url.length)) = decide (urlLen o < urlLen n) := by
    intro o n
    rw [decide_eq_decide]
    exact Nat.cast_lt.symm
  simpa [merger_dedup, dedup] using
    dedup_fold_lookup merger_channel_id
      (fun old new => old.url.length < new.url.length) urlLen hupd cid cs []

/-- The generator deduplication stores, at each fingerprint, the priority-fold
winner of that fingerprint's records. -/
theorem generator_dedup_lookup (cs : List Chan) (cid : String) :
    (generator_dedup cs).lookup cid =
      groupWinner chanPrio (cs.filter fun c => generator_channel_key c = cid) := by
  have hupd : ∀ o n : Chan,
      (decide (o.priority < n.priority)) = decide (chanPrio o < chanPrio n) := by
    intro o n
    rfl
  simpa [generator_dedup, dedup] using
    dedup_fold_lookup generator_channel_key
      (fun old new => old.priority < new.priority) chanPrio hupd cid cs []

/-- C1 amended: each deduplication keeps exactly one record per fingerprint, and
the kept record is the leftmost record of its fingerprint group attaining the
maximal comparison measure — in `ChannelMerger.merge` the measure is url length
alone (priority plays no role; equal lengths keep the first-processed record),
and in `IPTVGenerator.process_sources` it is priority alone (url length plays no
role; equal priorities keep the first-processed record). -/
theorem C1_amended (cs : List Chan) (cid : String) :
    ((merger_dedup cs).map Prod.fst).Nodup ∧
    ((generator_dedup cs).map Prod.fst).Nodup ∧
    ((merger_dedup cs).lookup cid = none ↔ ∀ c ∈ cs, merger_channel_id c ≠ cid) ∧
    (∀ w, (merger_dedup cs).lookup cid = some w →
      ∃ l1 l2, (cs.filter fun c => merger_channel_id c = cid) = l1 ++ w :: l2 ∧
        (∀ x ∈ l1, x.url.length < w.url.length) ∧
        (∀ x ∈ l2, x.url.length ≤ w.url.length)) ∧
    ((generator_dedup cs).lookup cid = none ↔ ∀ c ∈ cs, generator_channel_key c ≠ cid) ∧
    (∀ w, (generator_dedup cs).lookup cid = some w →
      ∃ l1 l2, (cs.filter fun c => generator_channel_key c = cid) = l1 ++ w :: l2 ∧
        (∀ x ∈ l1, x.priority < w.priority) ∧
        (∀ x ∈ l2, x.priority ≤ w.priority)) := by
  refine ⟨?_, ?_, ?_, ?_, ?_, ?_⟩
  · exact dedup_fold_keys_nodup _ _ cs [] (by simp)
  · exact dedup_fold_keys_nodup _ _ cs [] (by simp)
  · rw [merger_dedup_lookup, groupWinner_eq_none_iff]
    simp [List.filter_eq_nil_iff]
  · intro w hw
    rw [merger_dedup_lookup] at hw
    cases hf : (cs.filter fun c => merger_channel_id c = cid) with
    | nil =>
      rw [hf] at hw
      simp [groupWinner] at hw
    | cons c rest =>
      rw [hf] at hw
      simp only [groupWinner, Option.some.injEq] at hw
      obtain ⟨l1, l2, heq, h1, h2⟩ := foldl_pickBest_spec urlLen rest c
      rw [hw] at heq h1 h2
      refine ⟨l1, l2, heq, ?_, ?_⟩
      · intro x hx
        have hx' := h1 x hx
        simp only [urlLen] at hx'
        exact_mod_cast hx'
      · intro x hx
        have hx' := h2 x hx
        simp only [urlLen] at hx'
        exact_mod_cast hx'
  · rw [generator_dedup_lookup, groupWinner_eq_none_iff]
    simp [List.filter_eq_nil_iff]
  · intro w hw
    rw [generator_dedup_lookup] at hw
    cases hf : (cs.filter fun c => generator_channel_key c = cid) with
    | nil =>
      rw [hf] at hw
      simp [groupWinner] at hw
    | cons c rest =>
      rw [hf] at hw
      simp only [groupWinner, Option.some.injEq] at hw
      obtain ⟨l1, l2, heq, h1, h2⟩ := foldl_pickBest_spec chanPrio rest c
      rw [hw] at heq h1 h2
      exact ⟨l1, l2, heq, h1, h2⟩

/-- Witness for C1 amended: at the two-record counterexample input, the stored
winner of the shared fingerprint is the longer-url record, preceded in the group
by the strictly shorter higher-priority record. -/
theorem C1_amended_witness :
    (merger_dedup [chanHiPrio, chanLoPrio]).lookup (merger_channel_id chanHiPrio) =
      some chanLoPrio ∧
    ∃ l1 l2,
      ([chanHiPrio, chanLoPrio].filter
          fun c => merger_channel_id c = merger_channel_id chanHiPrio) =
        l1 ++ chanLoPrio :: l2 ∧
      (∀ x ∈ l1, x.url.length < chanLoPrio.url.length) ∧
      (∀ x ∈ l2, x.url.length ≤ chanLoPrio.url.length) :=
  ⟨by decide,
   (C1_amended [chanHiPrio, chanLoPrio] (merger_channel_id chanHiPrio)).2.2.2.1
     chanLoPrio (by decide)⟩

/-- The look-back loop on a window list whose first success is `d`: it reports
`(d, true)` and probes exactly the failing prefix followed by `d`. -/
theorem searchDays_found (net : Net) (url : String) :
    ∀ (ds : List Nat) (d : Nat),
      ds.find? (fun x => test_catchup_day net x) = some d →
      searchDays net url ds =
        (d, true,
          ((ds.takeWhile fun x => ! test_catchup_day net x).map
            fun x => Probe.dayHead (apply_catchup_params url x) x)
          ++ [Probe.dayHead (apply_catchup_params url d) d]) := by
  intro ds
  induction ds with
  | nil =>
    intro d hd
    simp at hd
  | cons a rest ih =>
    intro d hd
    by_cases h : test_catchup_day net a
    · rw [List.find?_cons_of_pos _ h] at hd
      have had : a = d := by simpa using hd
      subst had
      simp [searchDays, h, List.takeWhile_cons, List.map_nil]
    · rw [List.find?_cons_of_neg _ (by simpa using h)] at hd
      have := ih d hd
      simp [searchDays, h, this, List.takeWhile_cons]

/-- The look-back loop on a window list with no success: `(0, false)` and every
window probed. -/
theorem searchDays_none (net : Net) (url : String) :
    ∀ ds : List Nat,
      ds.find? (fun x => test_catchup_day net x) = none →
      searchDays net url ds =
        (0, false, ds.map fun x => Probe.dayHead (apply_catchup_params url x) x) := by
  intro ds
  induction ds with
  | nil =>
    intro _
    simp [searchDays]
  | cons a rest ih =>
    intro hd
    by_cases h : test_catchup_day net a
    · rw [List.find?_cons_of_pos _ h] at hd
      exact absurd hd (by simp)
    · rw [List.find?_cons_of_neg _ (by simpa using h)] at hd
      simp [searchDays, h, ih hd]

/-- The template loop returns the first template whose probe succeeds. -/
theorem searchTemplate_result (net : Net) (url : String) :
    ∀ ts : List String,
      (searchTemplate net url ts).1 = ts.find? (fun t => test_template net t) := by
  intro ts
  induction ts with
  | nil => simp [searchTemplate]
  | cons t rest ih =>
    by_cases h : test_template net t
    · simp [searchTemplate, h, List.find?_cons_of_pos _ h]
    · rw [List.find?_cons_of_neg _ (by simpa using h)]
      simp [searchTemplate, h, ih]

/-- The template search records only template probes. -/
theorem searchTemplate_trace_shape (net : Net) (url : String) :
    ∀ ts : List String, ∀ p ∈ (searchTemplate net url ts).2,
      ∃ u t, p = Probe.tmplHead u t := by
  intro ts
  induction ts with
  | nil =>
    intro p hp
    simp [searchTemplate] at hp
  | cons t rest ih =>
    intro p hp
    by_cases h : test_template net t
    · simp [searchTemplate, h] at hp
      exact ⟨_, _, hp⟩
    · simp [searchTemplate, h] at hp
      rcases hp with hp | hp
      · exact ⟨_, _, hp⟩
      · exact ih p hp

/-- Reading the probed windows back out of a pure day-probe trace. -/
theorem filterMap_dayHead (g : Nat → String) (l : List Nat) :
    (l.map fun x => Probe.dayHead (g x) x).filterMap
      (fun p => match p with | Probe.dayHead _ d => some d | _ => none) = l := by
  induction l with
  | nil => rfl
  | cons a rest ih => simp [List.filterMap_cons, ih]

/-- C2: past the connectivity gate, the look-back windows are tested in the order
30, 15, 7, 3, 1; a window's probe succeeds exactly on HTTP 200 with a content-type
starting `video/` or `application/vnd.apple.mpegurl`; the first success sets
`maxDays` and `supported` and stops the search (smaller windows are not probed);
with no success `supported` is false and `maxDays` is 0, so `maxDays` is always in
{0, 1, 3, 7, 15, 30}. -/
theorem C2_lookback_search (net : Net) (url : String) (h : test_connection net = true) :
    (∀ d, test_catchup_day net d = true ↔
      ∃ r, net.dayResp d = some r ∧ r.status = 200 ∧
        (pyStarts r.contentType "video/" = true ∨
         pyStarts r.contentType "application/vnd.apple.mpegurl" = true)) ∧
    (∀ d, test_days_desc.find? (fun x => test_catchup_day net x) = some d →
      (detect_catchup_capability net url).1.max_days = d ∧
      (detect_catchup_capability net url).1.supported = true ∧
      probedWindows net url =
        (test_days_desc.takeWhile fun x => ! test_catchup_day net x) ++ [d]) ∧
    (test_days_desc.find? (fun x => test_catchup_day net x) = none →
      (detect_catchup_capability net url).1.max_days = 0 ∧
      (detect_catchup_capability net url).1.supported = false ∧
      probedWindows net url = test_days_desc) ∧
    (detect_catchup_capability net url).1.max_days ∈ [0, 1, 3, 7, 15, 30] := by
  have hdet1 : (detect_catchup_capability net url).1 =
      { supported := (searchDays net url test_days_desc).2.1,
        max_days := (searchDays net url test_days_desc).1,
        recommended_template := (searchTemplate net url best_templates).1,
        latency_ms := (get_stream_metadata net).1,
        codec_info := (get_stream_metadata net).2 } := by
    simp [detect_catchup_capability, h]
  have hdet2 : (detect_catchup_capability net url).2 =
      Probe.connHead url ::
        ((searchDays net url test_days_desc).2.2 ++ (searchTemplate net url best_templates).2
          ++ [Probe.metaGet url]) := by
    simp [detect_catchup_capability, h]
  have htmpl : ∀ p ∈ (searchTemplate net url best_templates).2,
      (match p with | Probe.dayHead _ d => some d | _ => none) = (none : Option Nat) := by
    intro p hp
    obtain ⟨u, t, hpt⟩ := searchTemplate_trace_shape net url best_templates p hp
    rw [hpt]
  have hwin : probedWindows net url =
      (searchDays net url test_days_desc).2.2.filterMap
        (fun p => match p with | Probe.dayHead _ d => some d | _ => none) := by
    rw [probedWindows, hdet2]
    rw [List.filterMap_cons]
    simp only [List.filterMap_append]
    rw [List.filterMap_eq_nil_iff.mpr htmpl]
    simp
  refine ⟨?_, ?_, ?_, ?_⟩
  · intro d
    unfold test_catchup_day
    cases hr : net.dayResp d with
    | none => simp
    | some r =>
      simp [ctOk, Bool.and_eq_true, Bool.or_eq_true, beq_iff_eq]
  · intro d hd
    have hs := searchDays_found net url test_days_desc d hd
    refine ⟨by rw [hdet1, hs], by rw [hdet1, hs], ?_⟩
    rw [hwin, hs]
    simp only [List.filterMap_append]
    rw [filterMap_dayHead (fun x => apply_catchup_params url x)]
    simp [List.filterMap_cons]
  · intro hd
    have hs := searchDays_none net url test_days_desc hd
    refine ⟨by rw [hdet1, hs], by rw [hdet1, hs], ?_⟩
    rw [hwin, hs]
    exact filterMap_dayHead (fun x => apply_catchup_params url x) test_days_desc
  · cases hfind : test_days_desc.find? (fun x => test_catchup_day net x) with
    | none =>
      have hs := searchDays_none net url test_days_desc hfind
      rw [hdet1, hs]
      simp
    | some d =>
      have hs := searchDays_found net url test_days_desc d hfind
      have hmem : d ∈ test_days_desc := List.mem_of_find?_eq_some hfind
      rw [hdet1, hs]
      simp only [test_days_desc] at hmem
      fin_cases hmem <;> simp

/-- Witness for C2: a network accepting only the 7-day window reports
`maxDays = 7`, `supported = true`, after probing exactly 30, 15, then 7. -/
theorem C2_lookback_search_witness :
    test_connection netSeven = true ∧
    test_days_desc.find? (fun x => test_catchup_day netSeven x) = some 7 ∧
    (detect_catchup_capability netSeven "http://u").1.max_days = 7 ∧
    (detect_catchup_capability netSeven "http://u").1.supported = true ∧
    probedWindows netSeven "http://u" =
      (test_days_desc.takeWhile fun x => ! test_catchup_day netSeven x) ++ [7] :=
  ⟨by decide, by decide,
   ((C2_lookback_search netSeven "http://u" (by decide)).2.1 7 (by decide)).1,
   ((C2_lookback_search netSeven "http://u" (by decide)).2.1 7 (by decide)).2.1,
   ((C2_lookback_search netSeven "http://u" (by decide)).2.1 7 (by decide)).2.2⟩

/-- C3: past the connectivity gate, templates are probed in the fixed priority
order `playseek={utc}-{utcend}`, `timeshift={sec}`, `utc={start}&end={end}`,
`dvr={days}`; a template probe succeeds exactly on HTTP 200; the recommended
template is the first succeeding one (in particular `playseek` wins whenever its
probe succeeds, regardless of `dvr`), and is absent when none succeeds. -/
theorem C3_template_priority (net : Net) (url : String) (h : test_connection net = true) :
    best_templates =
      ["playseek={utc}-{utcend}", "timeshift={sec}", "utc={start}&end={end}", "dvr={days}"] ∧
    (∀ t, test_template net t = true ↔ ∃ r, net.tmplResp t = some r ∧ r.status = 200) ∧
    (detect_catchup_capability net url).1.recommended_template =
      best_templates.find? (fun t => test_template net t) ∧
    (test_template net "playseek={utc}-{utcend}" = true →
      (detect_catchup_capability net url).1.recommended_template =
        some "playseek={utc}-{utcend}") ∧
    ((∀ t ∈ best_templates, test_template net t = false) →
      (detect_catchup_capability net url).1.recommended_template = none) := by
  have hdet1 : (detect_catchup_capability net url).1.recommended_template =
      (searchTemplate net url best_templates).1 := by
    simp [detect_catchup_capability, h]
  refine ⟨rfl, ?_, ?_, ?_, ?_⟩
  · intro t
    unfold test_template
    cases hr : net.tmplResp t with
    | none => simp
    | some r => simp [beq_iff_eq]
  · rw [hdet1, searchTemplate_result]
  · intro hp
    rw [hdet1, searchTemplate_result]
    have hbt : best_templates =
        "playseek={utc}-{utcend}" ::
          ["timeshift={sec}", "utc={start}&end={end}", "dvr={days}"] := rfl
    rw [hbt, List.find?_cons_of_pos _ hp]
  · intro hnone
    rw [hdet1, searchTemplate_result]
    rw [List.find?_eq_none]
    intro t ht
    simp [hnone t ht]

/-- Witness for C3: with only the `dvr={days}` probe succeeding, the recommended
template is the `dvr` form, the first (and only) succeeding entry of the ordered
template list. -/
theorem C3_template_priority_witness :
    test_connection netSeven = true ∧
    (detect_catchup_capability netSeven "http://u").1.recommended_template =
      best_templates.find? (fun t => test_template netSeven t) ∧
    best_templates.find? (fun t => test_template netSeven t) = some "dvr={days}" :=
  ⟨by decide, (C3_template_priority netSeven "http://u" (by decide)).2.2.1, by decide⟩
